import Mathlib

/-
Verification of the deterministic climate-data synthesis and risk-scoring
engine of backend/server.py (Climate Intelligence Platform).

Modelling conventions:
* Python floats are modelled as rationals (ℚ).
* Python's round(x, n) (banker's rounding, half to even) is modelled by
  pyRound / round1 / round2 below.
* The module-level random generator is modelled as an explicit state
  (RState): a pair of the last planted seed and a position in the stream.
  The underlying pseudo-random source (Mersenne Twister in CPython) is
  abstracted as a stream u : ℤ → ℕ → ℚ giving, for each seed, the
  sequence of unit-interval draws random() would produce; random.seed(n)
  resets the state to (n, 0), and each draw advances the position.
  random.uniform(a, b) is a + (b-a) * random().
* datetime values are modelled by their absolute civil day number
  (days since 1970-01-01); the .day attribute (day of month) is computed
  by the standard civil-from-days algorithm. Subtracting/adding
  timedelta(days=i) is integer subtraction/addition on the day number.
-/

/-- Python's float modulo for a positive divisor: x % y = x - y*⌊x/y⌋,
always in [0, y) for y > 0. -/
def pymod (x y : ℚ) : ℚ := x - y * ⌊x / y⌋

/-- Python's round() to an integer: nearest integer, ties to even
(banker's rounding), as CPython's round does on floats. -/
def pyRound (q : ℚ) : ℤ :=
  let f := ⌊q⌋
  let r := q - (f : ℚ)
  if r < 1/2 then f
  else if 1/2 < r then f + 1
  else if 2 ∣ f then f else f + 1

/-- Python's round(x, 1): round to one decimal place. -/
def round1 (q : ℚ) : ℚ := (pyRound (10 * q) : ℚ) / 10

/-- Python's round(x, 2): round to two decimal places. -/
def round2 (q : ℚ) : ℚ := (pyRound (100 * q) : ℚ) / 100

/-- Day of month (1..31) of the civil date with the given day number
(days since 1970-01-01), by the standard days-to-civil conversion.
The day within the 400-year era is the day number modulo 146097,
shifted so that era days start on 0000-03-01. -/
def dayOfMonth (z : ℤ) : ℕ :=
  let doe := ((z + 719468) % 146097).toNat
  let yoe := (doe - doe / 1460 + doe / 36524 - doe / 146096) / 365
  let doy := doe - (365 * yoe + yoe / 4 - yoe / 100)
  let mp := (5 * doy + 2) / 153
  doy - (153 * mp + 2) / 5 + 1

/-- Abstract pseudo-random source: for each seed, the stream of
unit-interval values that successive random() calls would return. -/
def RStream : Type := ℤ → ℕ → ℚ

/-- State of the module-level random generator: the seed last planted by
random.seed and the number of draws consumed since. -/
structure RState where
  seed : ℤ
  pos : ℕ

/-- random.seed(n): reset the generator state. -/
def randomSeed (n : ℤ) : RState := ⟨n, 0⟩

/-- random.random(): one unit-interval draw, advancing the state. -/
def randomDraw (u : RStream) (st : RState) : ℚ × RState :=
  (u st.seed st.pos, ⟨st.seed, st.pos + 1⟩)

/-- random.uniform(a, b) = a + (b-a) * random(). -/
def uniformR (u : RStream) (a b : ℚ) (st : RState) : ℚ × RState :=
  (a + (b - a) * u st.seed st.pos, ⟨st.seed, st.pos + 1⟩)

/-- The fixed record of numeric fields returned by generate_mock_weather. -/
structure Weather where
  temperature : ℚ
  feels_like : ℚ
  humidity : ℚ
  pressure : ℚ
  wind_speed : ℚ
  wind_direction : ℚ
  rainfall : ℚ
  cloud_cover : ℚ
  uv_index : ℚ
  visibility : ℚ
deriving DecidableEq

/-- Seed planted by generate_mock_weather:
seed_val = int((lat * 1000 + lon * 100) % 10000), plus base_date.day.
Python's % with a positive divisor is nonnegative, so int() truncation
coincides with the floor. -/
def seedOf (lat lon : ℚ) (dateAbs : ℤ) : ℤ :=
  ⌊pymod (lat * 1000 + lon * 100) 10000⌋ + (dayOfMonth dateAbs : ℤ)

/-- generate_mock_weather(lat, lon, base_date) from backend/server.py.
The incoming generator state st0 is immediately overwritten by
random.seed(seed_val + base_date.day). Draws happen in source order:
the three base values (temperature, humidity, rainfall) first, then the
remaining dict entries in literal order (feels_like, pressure,
wind_speed, wind_direction, cloud_cover, uv_index, visibility). -/
def generate_mock_weather (u : RStream) (lat lon : ℚ) (dateAbs : ℤ)
    (st0 : RState) : Weather × RState :=
  let _ := st0
  let st := randomSeed (seedOf lat lon dateAbs)
  let t := uniformR u (-5) 5 st
  let base_temp := 25 - |lat| * 0.5 + t.1
  let h := uniformR u (-20) 30 t.2
  let base_humidity := 50 + h.1
  let r := uniformR u (-10) 50 h.2
  let base_rainfall := max 0 r.1
  let fl := uniformR u (-3) 3 r.2
  let pr := uniformR u (-20) 20 fl.2
  let ws := uniformR u 0 25 pr.2
  let wd := uniformR u 0 360 ws.2
  let cc := uniformR u 0 100 wd.2
  let uv := uniformR u 1 11 cc.2
  let vis := uniformR u 5 20 uv.2
  (⟨round1 base_temp,
    round1 (base_temp + fl.1),
    round1 (min 100 (max 0 base_humidity)),
    round1 (1013 + pr.1),
    round1 ws.1,
    (pyRound wd.1 : ℚ),
    round1 base_rainfall,
    round1 cc.1,
    round1 uv.1,
    round1 vis.1⟩, vis.2)

/-- Observation part of generate_mock_weather. Since the function reseeds
the generator before any draw, the observation does not depend on the
incoming state (proved as gen_state_independent below); callers may use
any fixed initial state. -/
def genObs (u : RStream) (lat lon : ℚ) (dateAbs : ℤ) : Weather :=
  (generate_mock_weather u lat lon dateAbs (randomSeed 0)).1

/-- Rounding half to even never moves below the floor. -/
theorem pyRound_ge_floor (q : ℚ) : ⌊q⌋ ≤ pyRound q := by
  simp only [pyRound]
  split_ifs <;> omega

/-- Rounding half to even never moves above the floor plus one. -/
theorem pyRound_le_floor_add_one (q : ℚ) : pyRound q ≤ ⌊q⌋ + 1 := by
  simp only [pyRound]
  split_ifs <;> omega

/-- Banker's rounding is monotone. -/
theorem pyRound_mono {x y : ℚ} (h : x ≤ y) : pyRound x ≤ pyRound y := by
  rcases lt_or_ge ⌊x⌋ ⌊y⌋ with hf | hf
  · calc pyRound x ≤ ⌊x⌋ + 1 := pyRound_le_floor_add_one x
      _ ≤ ⌊y⌋ := by omega
      _ ≤ pyRound y := pyRound_ge_floor y
  · have hfe : ⌊x⌋ = ⌊y⌋ := le_antisymm (Int.floor_le_floor h) hf
    have hr : x - (⌊y⌋ : ℚ) ≤ y - (⌊y⌋ : ℚ) := by linarith
    simp only [pyRound, hfe]
    split_ifs <;> first | omega | linarith

/-- Integers are fixed points of banker's rounding. -/
theorem pyRound_intCast (n : ℤ) : pyRound ((n : ℤ) : ℚ) = n := by
  simp only [pyRound, Int.floor_intCast, sub_self]
  norm_num

/-- Rounding an integer to one decimal gives it back. -/
theorem round1_intCast (n : ℤ) : round1 ((n : ℤ) : ℚ) = n := by
  unfold round1
  rw [show (10 : ℚ) * ((n : ℤ) : ℚ) = (((10 * n : ℤ) : ℤ) : ℚ) by push_cast; ring,
    pyRound_intCast]
  push_cast
  ring

/-- Rounding to one decimal is monotone. -/
theorem round1_mono {x y : ℚ} (h : x ≤ y) : round1 x ≤ round1 y := by
  unfold round1
  have := pyRound_mono (show 10 * x ≤ 10 * y by linarith)
  have hc : ((pyRound (10 * x) : ℤ) : ℚ) ≤ ((pyRound (10 * y) : ℤ) : ℚ) :=
    Int.cast_le.mpr this
  linarith

/-- Rounding to one decimal preserves interval bounds with integer endpoints. -/
theorem round1_mem_Icc {a b : ℤ} {q : ℚ} (h1 : (a : ℚ) ≤ q) (h2 : q ≤ (b : ℚ)) :
    (a : ℚ) ≤ round1 q ∧ round1 q ≤ (b : ℚ) := by
  constructor
  · have := round1_mono h1
    rwa [round1_intCast] at this
  · have := round1_mono h2
    rwa [round1_intCast] at this

/-- Banker's rounding of a value in the lower half of an integer step. -/
theorem pyRound_down (q : ℚ) (f : ℤ) (h1 : (f : ℚ) ≤ q)
    (h2 : q < (f : ℚ) + 1/2) : pyRound q = f := by
  have hfl : ⌊q⌋ = f := by
    rw [Int.floor_eq_iff]
    exact ⟨h1, by linarith⟩
  simp only [pyRound, hfl]
  rw [if_pos (by linarith)]

/-- Banker's rounding of a value in the upper half of an integer step. -/
theorem pyRound_up (q : ℚ) (f : ℤ) (h1 : (f : ℚ) + 1/2 < q)
    (h2 : q < (f : ℚ) + 1) : pyRound q = f + 1 := by
  have hfl : ⌊q⌋ = f := by
    rw [Int.floor_eq_iff]
    exact ⟨by linarith, by linarith⟩
  simp only [pyRound, hfl]
  rw [if_neg (by linarith), if_pos (by linarith)]

/-- Evaluation rule: rounding a value shown to be an integer. -/
theorem round1_eq_intCast {q : ℚ} {n : ℤ} (h : q = ((n : ℤ) : ℚ)) :
    round1 q = ((n : ℤ) : ℚ) := by
  rw [h, round1_intCast]

/-- Rounding to one decimal keeps values inside [0, 100]. -/
theorem round1_bounds_0_100 {q : ℚ} (h1 : 0 ≤ q) (h2 : q ≤ 100) :
    0 ≤ round1 q ∧ round1 q ≤ 100 := by
  have := @round1_mem_Icc 0 100 q (by exact_mod_cast h1) (by exact_mod_cast h2)
  constructor
  · exact_mod_cast this.1
  · exact_mod_cast this.2

/-- Clamping to [0, 100] then rounding to one decimal lands in [0, 100]. -/
theorem round1_clamped_bounds (x : ℚ) :
    0 ≤ round1 (min 100 (max 0 x)) ∧ round1 (min 100 (max 0 x)) ≤ 100 :=
  round1_bounds_0_100 (le_min (by norm_num) (le_max_left 0 x))
    (le_trans (min_le_left _ _) (by norm_num))

/-- Helper: the observation produced by generate_mock_weather does not
depend on the incoming generator state, because the call reseeds the
generator before drawing. -/
theorem gen_state_independent (u : RStream) (lat lon : ℚ) (dateAbs : ℤ)
    (st1 st2 : RState) :
    (generate_mock_weather u lat lon dateAbs st1).1 =
      (generate_mock_weather u lat lon dateAbs st2).1 := rfl

/-- Weather observation tagged with its date, as produced by the
historical generator (the date key added to the weather dict). -/
structure TaggedWeather where
  date : ℤ
  weather : Weather

/-- Forecast point: weather tagged with date and confidence. -/
structure ForecastPoint where
  date : ℤ
  weather : Weather
  confidence : ℚ

/-- generate_historical_data(lat, lon, days) from backend/server.py:
for i in 1..days, synthesize weather for base_date - i days, tag it with
the date, append; return the reversed list. Each inner call reseeds the
generator, so the threaded generator state does not affect any output
(gen_state_independent); the calls are modelled with a fixed initial
state. -/
def generate_historical_data (u : RStream) (lat lon : ℚ) (base : ℤ)
    (days : ℕ) : List TaggedWeather :=
  (((List.range days).map (fun k =>
    let i : ℕ := k + 1
    let date : ℤ := base - (i : ℤ)
    ({ date := date, weather := genObs u lat lon date } : TaggedWeather)))).reverse

/-- generate_forecast_data(lat, lon, days) from backend/server.py:
for i in 1..days, synthesize weather for base_date + i days, tag it with
the date and confidence round(max(50, 95 - i*4), 1); no reversal. -/
def generate_forecast_data (u : RStream) (lat lon : ℚ) (base : ℤ)
    (days : ℕ) : List ForecastPoint :=
  (List.range days).map (fun k =>
    let i : ℕ := k + 1
    let date := base + (i : ℤ)
    ⟨date, genObs u lat lon date, round1 (max 50 (95 - (i : ℚ) * 4))⟩)

/-- Result record of calculate_risk_scores. The four assumption strings
are modelled as label/value pairs carrying the numbers interpolated into
them; the two historical_patterns labels are the literal strings. -/
structure Risk where
  drought_risk : ℚ
  flood_risk : ℚ
  heat_stress : ℚ
  overall_risk : ℚ
  confidence : ℚ
  assumptions : List (String × ℚ)
  temp_trend : String
  rainfall_trend : String

/-- calculate_risk_scores(weather_data, historical) from
backend/server.py. Note the three category scores are clamped to
[0, 100] before rounding, while overall_risk averages the unclamped
values; the historical list feeds only the averages used in the
assumptions and trend labels. -/
def calculate_risk_scores (current : Weather) (historical : List Weather) :
    Risk :=
  let drought_factors : List ℚ :=
    [max 0 ((30 - current.rainfall) / 30),
     max 0 ((50 - current.humidity) / 50),
     max 0 ((current.temperature - 25) / 25)]
  let drought_risk := drought_factors.sum / (drought_factors.length : ℚ) * 100
  let flood_factors : List ℚ :=
    [min 1 (current.rainfall / 100),
     min 1 (current.humidity / 100),
     min 1 (current.cloud_cover / 100)]
  let flood_risk := flood_factors.sum / (flood_factors.length : ℚ) * 100
  let heat_factors : List ℚ :=
    [max 0 ((current.temperature - 20) / 30),
     max 0 (current.humidity / 100),
     max 0 (current.uv_index / 11)]
  let heat_risk := heat_factors.sum / (heat_factors.length : ℚ) * 100
  let avg_temp :=
    if historical.isEmpty then current.temperature
    else (historical.map Weather.temperature).sum / (historical.length : ℚ)
  let avg_rainfall :=
    if historical.isEmpty then current.rainfall
    else (historical.map Weather.rainfall).sum / (historical.length : ℚ)
  { drought_risk := round1 (min 100 (max 0 drought_risk))
    flood_risk := round1 (min 100 (max 0 flood_risk))
    heat_stress := round1 (min 100 (max 0 heat_risk))
    overall_risk := round1 ((drought_risk + flood_risk + heat_risk) / 3)
    confidence := 85.5
    assumptions :=
      [("Based on current temperature", current.temperature),
       ("Historical average temperature", round1 avg_temp),
       ("Current rainfall", current.rainfall),
       ("Historical average rainfall", round1 avg_rainfall)]
    temp_trend := if avg_temp < current.temperature then "rising" else "falling"
    rainfall_trend :=
      if avg_rainfall < current.rainfall then "above_normal" else "below_normal" }

/-- Result record of calculate_sustainability_trends, flattened: one
field per numeric value or categorical label of the five groups. -/
structure SustainabilityBundle where
  groundwater_current : ℚ
  groundwater_change_percent : ℚ
  groundwater_trend : String
  crop_yield_current : ℚ
  crop_yield_change_percent : ℚ
  crop_yield_trend : String
  temperature_anomaly_current : ℚ
  temperature_anomaly_change_5yr : ℚ
  temperature_anomaly_trend : String
  air_quality_current : ℚ
  air_quality_category : String
  carbon_regional_avg : ℚ
  carbon_national_avg : ℚ
  carbon_trend : String

/-- calculate_sustainability_trends(lat, lon) from backend/server.py.
The seed is int((lat*1000 + lon*100) % 10000) with no date term; the
incoming generator state st0 is immediately overwritten by random.seed.
Draws happen in dict-literal order. -/
def calculate_sustainability_trends (u : RStream) (lat lon : ℚ)
    (st0 : RState) : SustainabilityBundle × RState :=
  let _ := st0
  let st := randomSeed ⌊pymod (lat * 1000 + lon * 100) 10000⌋
  let g1 := uniformR u (-15) (-5) st
  let g2 := uniformR u (-10) 5 g1.2
  let g3 := randomDraw u g2.2
  let c1 := uniformR u 70 100 g3.2
  let c2 := uniformR u (-15) 15 c1.2
  let c3 := randomDraw u c2.2
  let t1 := uniformR u 0.5 2.5 c3.2
  let t2 := uniformR u 0.3 1.5 t1.2
  let a1 := uniformR u 30 150 t2.2
  let a2 := randomDraw u a1.2
  let cb1 := uniformR u 5 15 a2.2
  let cb2 := randomDraw u cb1.2
  (⟨round1 g1.1, round1 g2.1, if 0.5 < g3.1 then "declining" else "stable",
    round1 c1.1, round1 c2.1, if 0.4 < c3.1 then "improving" else "declining",
    round2 t1.1, round2 t2.1, "rising",
    (pyRound a1.1 : ℚ), if 0.5 < a2.1 then "moderate" else "good",
    round1 cb1.1, 8.5, if 0.6 < cb2.1 then "decreasing" else "stable"⟩, cb2.2)

/-- Result of the climate/scenario endpoint (simulate_scenario): the two
formatted change strings are presentation only and carry the same
numbers as the inputs; the numeric risk deltas are modelled. -/
structure ScenarioResult where
  original_weather : Weather
  modified_weather : Weather
  original_risk : Risk
  modified_risk : Risk
  drought_risk_change : ℚ
  flood_risk_change : ℚ
  heat_stress_change : ℚ

/-- simulate_scenario from backend/server.py: baseline weather for the
current date, perturbed copy (rainfall scaled and floored at 0,
temperature shifted, humidity scaled and clamped to [0, 100]), one
10-day historical series reused for both risk computations. The source
recomputes calculate_risk_scores(base_weather, historical) for each
delta; the calls are deterministic, so a single shared value is used. -/
def simulate_scenario (u : RStream) (lat lon rainfall_change
    temperature_change : ℚ) (now : ℤ) : ScenarioResult :=
  let base_weather := genObs u lat lon now
  let modified_weather : Weather :=
    { base_weather with
      rainfall := max 0 (base_weather.rainfall * (1 + rainfall_change / 100))
      temperature := base_weather.temperature + temperature_change
      humidity :=
        min 100 (max 0 (base_weather.humidity * (1 + rainfall_change / 200))) }
  let historical :=
    ((generate_historical_data u lat lon now 10).map TaggedWeather.weather)
  let new_risk := calculate_risk_scores modified_weather historical
  let base_risk := calculate_risk_scores base_weather historical
  { original_weather := base_weather
    modified_weather := modified_weather
    original_risk := base_risk
    modified_risk := new_risk
    drought_risk_change := round1 (new_risk.drought_risk - base_risk.drought_risk)
    flood_risk_change := round1 (new_risk.flood_risk - base_risk.flood_risk)
    heat_stress_change := round1 (new_risk.heat_stress - base_risk.heat_stress) }

/-- Modelled from the spec: a weather synthesizer drawing in the spec's
claimed fixed order (temperature, feels-like, humidity, pressure, wind
speed, wind direction, rainfall, cloud cover, UV index, visibility),
so that the field listed k-th consumes draw k of the stream seeded by
seedOf. Written only to compare the spec's claimed draw order against
the order the code actually uses. -/
def genSpecOrder (u : RStream) (lat lon : ℚ) (dateAbs : ℤ) : Weather :=
  let s := seedOf lat lon dateAbs
  let base_temp := 25 - |lat| * 0.5 + (-5 + (5 - -5) * u s 0)
  ⟨round1 base_temp,
   round1 (base_temp + (-3 + (3 - -3) * u s 1)),
   round1 (min 100 (max 0 (50 + (-20 + (30 - -20) * u s 2)))),
   round1 (1013 + (-20 + (20 - -20) * u s 3)),
   round1 (0 + (25 - 0) * u s 4),
   (pyRound (0 + (360 - 0) * u s 5) : ℚ),
   round1 (max 0 (-10 + (50 - -10) * u s 6)),
   round1 (0 + (100 - 0) * u s 7),
   round1 (1 + (11 - 1) * u s 8),
   round1 (5 + (20 - 5) * u s 9)⟩

/-- C1: for every latitude, longitude and date, two calls to the weather
synthesizer with identical arguments yield bit-identical observations:
every one of the ten fields is equal across the two runs, whatever the
state the module random generator was left in beforehand (each call
reseeds it from the same inputs). -/
theorem generate_mock_weather_deterministic (u : RStream) (lat lon : ℚ)
    (dateAbs : ℤ) (st1 st2 : RState) :
    (generate_mock_weather u lat lon dateAbs st1).1.temperature =
      (generate_mock_weather u lat lon dateAbs st2).1.temperature ∧
    (generate_mock_weather u lat lon dateAbs st1).1.feels_like =
      (generate_mock_weather u lat lon dateAbs st2).1.feels_like ∧
    (generate_mock_weather u lat lon dateAbs st1).1.humidity =
      (generate_mock_weather u lat lon dateAbs st2).1.humidity ∧
    (generate_mock_weather u lat lon dateAbs st1).1.pressure =
      (generate_mock_weather u lat lon dateAbs st2).1.pressure ∧
    (generate_mock_weather u lat lon dateAbs st1).1.wind_speed =
      (generate_mock_weather u lat lon dateAbs st2).1.wind_speed ∧
    (generate_mock_weather u lat lon dateAbs st1).1.wind_direction =
      (generate_mock_weather u lat lon dateAbs st2).1.wind_direction ∧
    (generate_mock_weather u lat lon dateAbs st1).1.rainfall =
      (generate_mock_weather u lat lon dateAbs st2).1.rainfall ∧
    (generate_mock_weather u lat lon dateAbs st1).1.cloud_cover =
      (generate_mock_weather u lat lon dateAbs st2).1.cloud_cover ∧
    (generate_mock_weather u lat lon dateAbs st1).1.uv_index =
      (generate_mock_weather u lat lon dateAbs st2).1.uv_index ∧
    (generate_mock_weather u lat lon dateAbs st1).1.visibility =
      (generate_mock_weather u lat lon dateAbs st2).1.visibility :=
  ⟨rfl, rfl, rfl, rfl, rfl, rfl, rfl, rfl, rfl, rfl⟩

/-- C9: the sustainability trend synthesizer takes no date input and its
seed has no day-of-month term, so for a fixed coordinate it returns an
identical bundle no matter what day it runs on, i.e. no matter what
state the surrounding activity left the module random generator in. -/
theorem sustainability_trends_date_independent (u : RStream) (lat lon : ℚ)
    (st1 st2 : RState) :
    (calculate_sustainability_trends u lat lon st1).1 =
      (calculate_sustainability_trends u lat lon st2).1 := rfl

/-- C10: the five numeric outputs of the risk scorer depend only on the
current observation: any two historical lists give equal drought_risk,
flood_risk, heat_stress, overall_risk and confidence; history feeds only
the assumption values and trend labels. -/
theorem risk_scores_history_independent (current : Weather)
    (h1 h2 : List Weather) :
    (calculate_risk_scores current h1).drought_risk =
      (calculate_risk_scores current h2).drought_risk ∧
    (calculate_risk_scores current h1).flood_risk =
      (calculate_risk_scores current h2).flood_risk ∧
    (calculate_risk_scores current h1).heat_stress =
      (calculate_risk_scores current h2).heat_stress ∧
    (calculate_risk_scores current h1).overall_risk =
      (calculate_risk_scores current h2).overall_risk ∧
    (calculate_risk_scores current h1).confidence =
      (calculate_risk_scores current h2).confidence :=
  ⟨rfl, rfl, rfl, rfl, rfl⟩

/-- C7: the risk scorer on an empty historical list does not divide by
zero: it falls back to the current observation's own temperature and
rainfall as the historical averages, and its assumption entries report
those (rounded) values as the historical-average figures. -/
theorem risk_scores_empty_history (obs : Weather) :
    (calculate_risk_scores obs []).assumptions =
      [("Based on current temperature", obs.temperature),
       ("Historical average temperature", round1 obs.temperature),
       ("Current rainfall", obs.rainfall),
       ("Historical average rainfall", round1 obs.rainfall)] := rfl

/-- C2 (amended): each field of the synthesized observation consumes a
fixed position of the stream seeded from
int((lat*1000 + lon*100) % 10000) + day-of-month, but in the code's
actual draw order: temperature draw 0, humidity draw 1, rainfall draw 2,
feels-like draw 3, pressure draw 4, wind speed draw 5, wind direction
draw 6, cloud cover draw 7, UV index draw 8, visibility draw 9 (the
three base values are drawn before the remaining dict entries). -/
theorem generate_mock_weather_draw_order (u : RStream) (lat lon : ℚ)
    (dateAbs : ℤ) :
    genObs u lat lon dateAbs =
      { temperature := round1 (25 - |lat| * 0.5 +
          (-5 + (5 - -5) * u (seedOf lat lon dateAbs) 0))
        feels_like := round1 ((25 - |lat| * 0.5 +
          (-5 + (5 - -5) * u (seedOf lat lon dateAbs) 0)) +
          (-3 + (3 - -3) * u (seedOf lat lon dateAbs) 3))
        humidity := round1 (min 100 (max 0
          (50 + (-20 + (30 - -20) * u (seedOf lat lon dateAbs) 1))))
        pressure := round1 (1013 +
          (-20 + (20 - -20) * u (seedOf lat lon dateAbs) 4))
        wind_speed := round1 (0 + (25 - 0) * u (seedOf lat lon dateAbs) 5)
        wind_direction :=
          (pyRound (0 + (360 - 0) * u (seedOf lat lon dateAbs) 6) : ℚ)
        rainfall := round1 (max 0
          (-10 + (50 - -10) * u (seedOf lat lon dateAbs) 2))
        cloud_cover := round1 (0 + (100 - 0) * u (seedOf lat lon dateAbs) 7)
        uv_index := round1 (1 + (11 - 1) * u (seedOf lat lon dateAbs) 8)
        visibility := round1 (5 + (20 - 5) * u (seedOf lat lon dateAbs) 9) } :=
  rfl

/-- C2 (counterexample): on the stream whose draw k has value k/10, the
observation produced by the code differs from the one mandated by the
spec's claimed draw order (the humidity field already disagrees, because
the code draws humidity at position 1 while the spec's order would put
it at position 2). -/
theorem draw_order_spec_counterexample :
    (genObs (fun _ k => (k : ℚ) / 10) 0 0 0).humidity ≠
      (genSpecOrder (fun _ k => (k : ℚ) / 10) 0 0 0).humidity := by
  have hL : (genObs (fun _ k => (k : ℚ) / 10) 0 0 0).humidity
      = ((35 : ℤ) : ℚ) := by
    simp only [genObs, generate_mock_weather, uniformR, randomSeed]
    exact round1_eq_intCast (by norm_num [max_def, min_def])
  have hR : (genSpecOrder (fun _ k => (k : ℚ) / 10) 0 0 0).humidity
      = ((40 : ℤ) : ℚ) := by
    simp only [genSpecOrder]
    exact round1_eq_intCast (by norm_num [max_def, min_def])
  rw [hL, hR]
  norm_num

/-- C4 (counterexample): a unit draw of 3597/3600 (a legal random()
value, inside [0,1)) at the wind-direction position makes
uniform(0, 360) = 359.7, which round() takes up to exactly 360: the
wind_direction field equals 360, so the half-open bound [0, 360) fails. -/
theorem wind_direction_hits_360 :
    (genObs (fun _ k => if k = 6 then 3597 / 3600 else 0) 0 0 0).wind_direction
      = 360 := by
  simp only [genObs, generate_mock_weather, uniformR, randomSeed]
  norm_num
  rw [pyRound_up (3597 / 10) 359 (by norm_num) (by norm_num)]
  norm_num

/-- C4 (amended): for every stream of unit draws in [0, 1), every
latitude, longitude and date, the wind_direction field is an integral
value in the closed range [0, 360]: it is never negative and never
exceeds 360, but rounding can make it equal 360. -/
theorem wind_direction_in_range (u : RStream)
    (hu : ∀ s k, 0 ≤ u s k ∧ u s k < 1) (lat lon : ℚ) (dateAbs : ℤ) :
    0 ≤ (genObs u lat lon dateAbs).wind_direction ∧
    (genObs u lat lon dateAbs).wind_direction ≤ 360 ∧
    ∃ m : ℤ, (genObs u lat lon dateAbs).wind_direction = (m : ℚ) := by
  obtain ⟨hu0, hu1⟩ := hu (seedOf lat lon dateAbs) 6
  simp only [genObs, generate_mock_weather, uniformR, randomSeed]
  refine ⟨?_, ?_, ⟨_, rfl⟩⟩
  · have hq : (0 : ℚ) ≤ 0 + (360 - 0) * u (seedOf lat lon dateAbs) 6 := by
      nlinarith
    have h1 : 0 ≤ ⌊(0 : ℚ) + (360 - 0) * u (seedOf lat lon dateAbs) 6⌋ :=
      Int.floor_nonneg.mpr hq
    have h2 := pyRound_ge_floor ((0 : ℚ) + (360 - 0) * u (seedOf lat lon dateAbs) 6)
    exact_mod_cast le_trans h1 h2
  · have hq : (0 : ℚ) + (360 - 0) * u (seedOf lat lon dateAbs) 6 < 360 := by
      nlinarith
    have h1 : ⌊(0 : ℚ) + (360 - 0) * u (seedOf lat lon dateAbs) 6⌋ < 360 :=
      Int.floor_lt.mpr (by exact_mod_cast hq)
    have h2 := pyRound_le_floor_add_one
      ((0 : ℚ) + (360 - 0) * u (seedOf lat lon dateAbs) 6)
    have : pyRound ((0 : ℚ) + (360 - 0) * u (seedOf lat lon dateAbs) 6) ≤ 360 := by
      omega
    exact_mod_cast this

/-- C4 (witness): the amended bound instantiated on the all-zero stream
at the origin coordinate and epoch date. -/
theorem wind_direction_in_range_witness :
    (∀ s : ℤ, ∀ k : ℕ, 0 ≤ (fun (_ : ℤ) (_ : ℕ) => (0 : ℚ)) s k ∧
      (fun (_ : ℤ) (_ : ℕ) => (0 : ℚ)) s k < 1) ∧
    (0 ≤ (genObs (fun _ _ => 0) 0 0 0).wind_direction ∧
     (genObs (fun _ _ => 0) 0 0 0).wind_direction ≤ 360 ∧
     ∃ m : ℤ, (genObs (fun _ _ => 0) 0 0 0).wind_direction = (m : ℚ)) :=
  ⟨fun _ _ => ⟨le_refl 0, by norm_num⟩,
   wind_direction_in_range (fun _ _ => 0)
     (fun _ _ => ⟨le_refl 0, by norm_num⟩) 0 0 0⟩

/-- C3 (counterexample): overall_risk is computed from the three
pre-clamp category values and is not itself clamped, so an extreme
observation (temperature 1000, every other field 0, empty history)
yields overall_risk = 818.5 > 100, refuting the [0, 100] bound for all
observations. -/
theorem overall_risk_exceeds_100 :
    100 < (calculate_risk_scores
      ⟨1000, 0, 0, 0, 0, 0, 0, 0, 0, 0⟩ []).overall_risk := by
  have h : (calculate_risk_scores
      ⟨1000, 0, 0, 0, 0, 0, 0, 0, 0, 0⟩ []).overall_risk
      = (pyRound (221000 / 27 : ℚ) : ℚ) / 10 := by
    simp only [calculate_risk_scores, round1, List.sum_cons, List.sum_nil,
      List.length_cons, List.length_nil]
    norm_num [max_def, min_def]
  rw [h, pyRound_down (221000 / 27) 8185 (by norm_num) (by norm_num)]
  norm_num

/-- C3 (amended): drought_risk, flood_risk and heat_stress are clamped
and lie in [0, 100] for every observation and every historical list;
overall_risk averages the unclamped category values and is only
guaranteed in [0, 100] when the observation's fields lie in the ranges
the weather synthesizer produces (rainfall ≥ 0, humidity in [0, 100],
cloud cover ≥ 0, temperature ≤ 50, UV index ≤ 11). -/
theorem risk_scores_bounds (current : Weather) (historical : List Weather) :
    (0 ≤ (calculate_risk_scores current historical).drought_risk ∧
      (calculate_risk_scores current historical).drought_risk ≤ 100) ∧
    (0 ≤ (calculate_risk_scores current historical).flood_risk ∧
      (calculate_risk_scores current historical).flood_risk ≤ 100) ∧
    (0 ≤ (calculate_risk_scores current historical).heat_stress ∧
      (calculate_risk_scores current historical).heat_stress ≤ 100) ∧
    (0 ≤ current.rainfall → 0 ≤ current.humidity → current.humidity ≤ 100 →
      0 ≤ current.cloud_cover → current.temperature ≤ 50 →
      current.uv_index ≤ 11 →
      0 ≤ (calculate_risk_scores current historical).overall_risk ∧
        (calculate_risk_scores current historical).overall_risk ≤ 100) := by
  refine ⟨?_, ?_, ?_, ?_⟩
  · simp only [calculate_risk_scores]
    exact round1_clamped_bounds _
  · simp only [calculate_risk_scores]
    exact round1_clamped_bounds _
  · simp only [calculate_risk_scores]
    exact round1_clamped_bounds _
  · intro hr hh0 hh1 hc ht huv
    simp only [calculate_risk_scores, List.sum_cons, List.sum_nil,
      List.length_cons, List.length_nil]
    apply round1_bounds_0_100
    · have d1 : (0 : ℚ) ≤ max 0 ((30 - current.rainfall) / 30) := le_max_left _ _
      have d2 : (0 : ℚ) ≤ max 0 ((50 - current.humidity) / 50) := le_max_left _ _
      have d3 : (0 : ℚ) ≤ max 0 ((current.temperature - 25) / 25) := le_max_left _ _
      have f1 : (0 : ℚ) ≤ min 1 (current.rainfall / 100) :=
        le_min (by norm_num) (by linarith)
      have f2 : (0 : ℚ) ≤ min 1 (current.humidity / 100) :=
        le_min (by norm_num) (by linarith)
      have f3 : (0 : ℚ) ≤ min 1 (current.cloud_cover / 100) :=
        le_min (by norm_num) (by linarith)
      have h1 : (0 : ℚ) ≤ max 0 ((current.temperature - 20) / 30) := le_max_left _ _
      have h2 : (0 : ℚ) ≤ max 0 (current.humidity / 100) := le_max_left _ _
      have h3 : (0 : ℚ) ≤ max 0 (current.uv_index / 11) := le_max_left _ _
      push_cast
      linarith
    · have d1 : max 0 ((30 - current.rainfall) / 30) ≤ 1 :=
        max_le (by norm_num) (by linarith)
      have d2 : max 0 ((50 - current.humidity) / 50) ≤ 1 :=
        max_le (by norm_num) (by linarith)
      have d3 : max 0 ((current.temperature - 25) / 25) ≤ 1 :=
        max_le (by norm_num) (by linarith)
      have f1 : min 1 (current.rainfall / 100) ≤ 1 := min_le_left _ _
      have f2 : min 1 (current.humidity / 100) ≤ 1 := min_le_left _ _
      have f3 : min 1 (current.cloud_cover / 100) ≤ 1 := min_le_left _ _
      have h1 : max 0 ((current.temperature - 20) / 30) ≤ 1 :=
        max_le (by norm_num) (by linarith)
      have h2 : max 0 (current.humidity / 100) ≤ 1 :=
        max_le (by norm_num) (by linarith)
      have h3 : max 0 (current.uv_index / 11) ≤ 1 :=
        max_le (by norm_num) (by linarith)
      push_cast
      linarith

/-- C3 (witness): the amended bounds instantiated on the all-zero
observation with empty history, which satisfies the synthesizer ranges. -/
theorem risk_scores_bounds_witness :
    ((0 ≤ (calculate_risk_scores ⟨0, 0, 0, 0, 0, 0, 0, 0, 0, 0⟩ []).drought_risk ∧
      (calculate_risk_scores ⟨0, 0, 0, 0, 0, 0, 0, 0, 0, 0⟩ []).drought_risk ≤ 100) ∧
     (0 ≤ (calculate_risk_scores ⟨0, 0, 0, 0, 0, 0, 0, 0, 0, 0⟩ []).flood_risk ∧
      (calculate_risk_scores ⟨0, 0, 0, 0, 0, 0, 0, 0, 0, 0⟩ []).flood_risk ≤ 100) ∧
     (0 ≤ (calculate_risk_scores ⟨0, 0, 0, 0, 0, 0, 0, 0, 0, 0⟩ []).heat_stress ∧
      (calculate_risk_scores ⟨0, 0, 0, 0, 0, 0, 0, 0, 0, 0⟩ []).heat_stress ≤ 100)) ∧
    (0 ≤ (calculate_risk_scores ⟨0, 0, 0, 0, 0, 0, 0, 0, 0, 0⟩ []).overall_risk ∧
      (calculate_risk_scores ⟨0, 0, 0, 0, 0, 0, 0, 0, 0, 0⟩ []).overall_risk ≤ 100) :=
  ⟨⟨(risk_scores_bounds ⟨0, 0, 0, 0, 0, 0, 0, 0, 0, 0⟩ []).1,
    (risk_scores_bounds ⟨0, 0, 0, 0, 0, 0, 0, 0, 0, 0⟩ []).2.1,
    (risk_scores_bounds ⟨0, 0, 0, 0, 0, 0, 0, 0, 0, 0⟩ []).2.2.1⟩,
   (risk_scores_bounds ⟨0, 0, 0, 0, 0, 0, 0, 0, 0, 0⟩ []).2.2.2
     (le_refl 0) (le_refl 0) (by norm_num) (le_refl 0) (by norm_num) (by norm_num)⟩

/-- C5: the historical generator returns exactly n points, each dated
strictly before the base date, and — after the internal reversal of the
descending-offset loop — in strictly ascending date order. -/
theorem generate_historical_props (u : RStream) (lat lon : ℚ) (base : ℤ)
    (n : ℕ) (hn : 1 ≤ n) :
    (generate_historical_data u lat lon base n).length = n ∧
    (∀ p ∈ generate_historical_data u lat lon base n, p.date < base) ∧
    ((generate_historical_data u lat lon base n).map
      TaggedWeather.date).Pairwise (· < ·) := by
  refine ⟨?_, ?_, ?_⟩
  · simp [generate_historical_data]
  · intro p hp
    simp only [generate_historical_data, List.mem_reverse, List.mem_map,
      List.mem_range] at hp
    obtain ⟨k, hk, hpe⟩ := hp
    rw [← hpe]
    simp only []
    omega
  · rw [generate_historical_data, List.map_reverse, List.pairwise_reverse,
      List.map_map, List.pairwise_map]
    refine (List.pairwise_lt_range n).imp ?_
    intro a b hab
    simp only [Function.comp, flip]
    omega

/-- C5 (witness): the historical properties instantiated at n = 10 with
the all-zero stream at the origin coordinate and epoch base date. -/
theorem generate_historical_props_witness :
    1 ≤ 10 ∧
    ((generate_historical_data (fun _ _ => 0) 0 0 0 10).length = 10 ∧
     (∀ p ∈ generate_historical_data (fun _ _ => 0) 0 0 0 10, p.date < 0) ∧
     ((generate_historical_data (fun _ _ => 0) 0 0 0 10).map
       TaggedWeather.date).Pairwise (· < ·)) :=
  ⟨by norm_num,
   generate_historical_props (fun _ _ => 0) 0 0 0 10 (by norm_num)⟩

/-- Helper: a forecast confidence value round(max(50, 95 - m*4), 1) is an
integer, so the rounding leaves it unchanged. -/
theorem conf_round (m : ℕ) :
    round1 (max 50 (95 - (m : ℚ) * 4)) = max 50 (95 - (m : ℚ) * 4) := by
  have h : max (50 : ℚ) (95 - (m : ℚ) * 4)
      = ((max 50 (95 - (m : ℤ) * 4) : ℤ) : ℚ) := by
    push_cast
    rfl
  rw [h, round1_intCast]

/-- C6: every forecast point at offset i carries confidence
max(50, 95 - 4i); the confidences are non-increasing along the list,
floored at 50, and for n = 10 the list of confidences is
[91, 87, 83, 79, 75, 71, 67, 63, 59, 55], so offset 10 carries 55. -/
theorem forecast_confidence_props (u : RStream) (lat lon : ℚ) (base : ℤ)
    (n : ℕ) :
    ((generate_forecast_data u lat lon base n).map ForecastPoint.confidence)
      = (List.range n).map (fun k : ℕ => max 50 (95 - ((k : ℚ) + 1) * 4)) ∧
    ((generate_forecast_data u lat lon base n).map
      ForecastPoint.confidence).Pairwise (· ≥ ·) ∧
    (∀ p ∈ generate_forecast_data u lat lon base n, 50 ≤ p.confidence) ∧
    ((generate_forecast_data u lat lon base 10).map ForecastPoint.confidence)
      = [91, 87, 83, 79, 75, 71, 67, 63, 59, 55] := by
  have key : ∀ m : ℕ,
      ((generate_forecast_data u lat lon base m).map ForecastPoint.confidence)
        = (List.range m).map (fun k : ℕ => max 50 (95 - ((k : ℚ) + 1) * 4)) := by
    intro m
    rw [generate_forecast_data, List.map_map]
    refine List.map_congr_left ?_
    intro k _
    simp only [Function.comp]
    rw [conf_round (k + 1)]
    push_cast
    rfl
  refine ⟨key n, ?_, ?_, ?_⟩
  · rw [key n, List.pairwise_map]
    refine (List.pairwise_lt_range n).imp ?_
    intro a b hab
    have hc : (a : ℚ) ≤ (b : ℚ) := by exact_mod_cast le_of_lt hab
    exact max_le_max (le_refl 50) (by linarith)
  · intro p hp
    simp only [generate_forecast_data, List.mem_map, List.mem_range] at hp
    obtain ⟨k, hk, hpe⟩ := hp
    rw [← hpe]
    simp only []
    rw [conf_round (k + 1)]
    exact le_max_left _ _
  · rw [key 10, show List.range 10 = [0, 1, 2, 3, 4, 5, 6, 7, 8, 9] from by decide]
    norm_num [max_def]

/-- C8: with rainfall_change held at 0, raising temperature_change from
t to t + 5 never decreases the heat_stress score of the modified
weather: the heat factor (T - 20)/30 is monotone in the perturbed
temperature and the clamping and rounding steps preserve order. -/
theorem scenario_heat_stress_monotone (u : RStream) (lat lon t : ℚ)
    (now : ℤ) :
    (simulate_scenario u lat lon 0 t now).modified_risk.heat_stress ≤
      (simulate_scenario u lat lon 0 (t + 5) now).modified_risk.heat_stress := by
  simp only [simulate_scenario, calculate_risk_scores, List.sum_cons,
    List.sum_nil, List.length_cons, List.length_nil]
  apply round1_mono
  refine min_le_min (le_refl (100 : ℚ)) ?_
  refine max_le_max (le_refl (0 : ℚ)) ?_
  gcongr
  linarith
